import Mathlib

/-!
Verification of the risk-scoring core of the XGBoost credit-risk web app
(`src/app.py`), as a shallow embedding in Lean 4.

Python floats are modelled as exact rationals (`ℚ`); the IEEE NaN value,
which one claim is about, is modelled by the two-constructor type `PFloat`
whose comparison mirrors IEEE `<` (every comparison involving NaN is
false).  Arbitrary Python values fed to the sanitizer are modelled by
`PyValue`; Python exceptions are modelled by `Except String` carrying
`str(e)`.  The external collaborators (joblib, the DictVectorizer, the
XGBoost booster, the filesystem) are parameters of the orchestration
model, so the theorems quantify over every possible behaviour of them.
-/

namespace CreditApp

/-- Values a Python expression may feed into `clamp_non_negative`:
a float (exact rational model), an int, a string, or `None`. -/
inductive PyValue where
  | pyFloat : ℚ → PyValue
  | pyInt : ℤ → PyValue
  | pyStr : String → PyValue
  | pyNone : PyValue
deriving DecidableEq, Repr

/-- Decimal digits of a string interpreted as a natural number. -/
def digitsToNat (ds : List Char) : ℕ :=
  ds.foldl (fun acc c => 10 * acc + (c.toNat - 48)) 0

/-- A non-empty, all-digit character list. -/
def allDigits (ds : List Char) : Bool :=
  !ds.isEmpty && ds.all (fun c => c.isDigit)

/-- Groups of characters between occurrences of `'.'`. -/
def splitDots : List Char → List (List Char)
  | [] => [[]]
  | c :: rest =>
      let groups := splitDots rest
      if c = '.' then [] :: groups
      else
        match groups with
        | [] => [[c]]
        | g :: gs => (c :: g) :: gs

/-- Modelled from the spec: Python's built-in `float()` conversion applied
to the characters of a string (the builtin is external to the repository;
§4.1 only says "attempt numeric conversion").  Decimal notation with an
optional sign and an optional fractional part succeeds; everything else
fails. -/
def parseFloatChars? (cs : List Char) : Option ℚ :=
  let (sign, body) : ℚ × List Char :=
    match cs with
    | '-' :: rest => (-1, rest)
    | '+' :: rest => (1, rest)
    | rest => (1, rest)
  match splitDots body with
  | [intPart] =>
      if allDigits intPart then
        some (sign * (digitsToNat intPart : ℚ))
      else none
  | [intPart, fracPart] =>
      if allDigits intPart && allDigits fracPart then
        some (sign * ((digitsToNat intPart : ℚ) +
          (digitsToNat fracPart : ℚ) / (10 : ℚ) ^ fracPart.length))
      else none
  | _ => none

/-- Modelled from the spec: `float()` on a string, via the char list. -/
def parseFloat? (s : String) : Option ℚ :=
  parseFloatChars? s.toList

/-- Python's `float(value)` coercion: succeeds on floats and ints, parses
strings, raises (here: `none`) on `None` and unparseable strings. -/
def pyfloat? : PyValue → Option ℚ
  | .pyFloat q => some q
  | .pyInt n => some (n : ℚ)
  | .pyStr s => parseFloat? s
  | .pyNone => none

/-- `clamp_non_negative` from `src/app.py`: try `float(value)`; on any
exception return `0.0`; otherwise return `max(0.0, v)`. -/
def clamp_non_negative (value : PyValue) : ℚ :=
  match pyfloat? value with
  | none => 0
  | some v => max 0 v

/-- `risk_bucket` from `src/app.py`: maps a probability of default to a
`(label, helper_text)` pair via the thresholds 0.33 and 0.66. -/
def risk_bucket (prob_default : ℚ) : String × String :=
  if prob_default < 33/100 then
    ("LOW", "Risiko rendah — umumnya layak dipertimbangkan.")
  else if prob_default < 66/100 then
    ("MEDIUM", "Risiko sedang — perlu verifikasi tambahan.")
  else
    ("HIGH", "Risiko tinggi — disarankan evaluasi ketat.")

/-- A Python float value as seen by IEEE comparison: either NaN or an
ordinary (finite, here exact-rational) value. -/
inductive PFloat where
  | nan : PFloat
  | fin : ℚ → PFloat
deriving DecidableEq, Repr

/-- IEEE `<` on `PFloat`: any comparison involving NaN is false. -/
def PFloat.lt : PFloat → PFloat → Bool
  | .fin a, .fin b => decide (a < b)
  | _, _ => false

/-- `risk_bucket` re-read with IEEE comparison semantics, so that the NaN
input can be evaluated; on finite inputs it agrees with `risk_bucket`. -/
def risk_bucketF (prob_default : PFloat) : String × String :=
  if PFloat.lt prob_default (.fin (33/100)) then
    ("LOW", "Risiko rendah — umumnya layak dipertimbangkan.")
  else if PFloat.lt prob_default (.fin (66/100)) then
    ("MEDIUM", "Risiko sedang — perlu verifikasi tambahan.")
  else
    ("HIGH", "Risiko tinggi — disarankan evaluasi ketat.")

/-- The `ApplicantRecord` / `input_dict` of `src/app.py`: thirteen fields;
the three monetary fields are arbitrary Python values (they are the ones
run through the sanitizer), the rest keep their source types. -/
structure ApplicantRecord where
  seniority : ℤ
  home : String
  time : ℤ
  age : ℤ
  marital : String
  records : String
  job : String
  expenses : ℤ
  income : PyValue
  assets : PyValue
  debt : PyValue
  amount : ℤ
  price : ℤ
deriving DecidableEq, Repr

/-- The `cleaned` dict of `src/app.py`: a copy of `input_dict` with
`clamp_non_negative` applied to exactly `income`, `assets`, `debt`. -/
def cleaned (r : ApplicantRecord) : ApplicantRecord :=
  { r with
    income := .pyFloat (clamp_non_negative r.income)
    assets := .pyFloat (clamp_non_negative r.assets)
    debt := .pyFloat (clamp_non_negative r.debt) }

/-- `VECTORIZER_PATH` of `src/app.py` (relative to `APP_DIR`). -/
def VECTORIZER_PATH : String := "dict_vectorizer.joblib"

/-- `MODEL_PATH` of `src/app.py` (relative to `APP_DIR`). -/
def MODEL_PATH : String := "xgb_credit_risk.json"

/-- `load_artifacts` from `src/app.py`: raise `FileNotFoundError` naming
the path if either artifact file is absent, else run the two (fallible)
library loads.  The filesystem and the loaders are parameters. -/
def load_artifacts {DV Booster : Type}
    (vectorizerExists modelExists : Bool)
    (joblibLoad : Except String DV) (boosterLoad : Except String Booster) :
    Except String (DV × Booster) :=
  if !vectorizerExists then
    .error ("File tidak ditemukan: " ++ VECTORIZER_PATH)
  else if !modelExists then
    .error ("File tidak ditemukan: " ++ MODEL_PATH)
  else do
    let dv ← joblibLoad
    let booster ← boosterLoad
    return (dv, booster)

/-- Behaviour of the external collaborators of the scoring path: the
filesystem, the two artifact loaders, `dv.transform` and
`booster.predict` (each of which may raise, modelled as `Except`). -/
structure ScoringEnv (DV Booster X : Type) where
  vectorizerExists : Bool
  modelExists : Bool
  joblibLoad : Except String DV
  boosterLoad : Except String Booster
  transform : DV → ApplicantRecord → Except String X
  predictProba : Booster → X → Except String ℚ

/-- The body of the `try:` block of `run_pred` up to the probability:
load artifacts, sanitize the record, transform, predict. -/
def scoringAttempt {DV Booster X : Type}
    (env : ScoringEnv DV Booster X) (record : ApplicantRecord) :
    Except String ℚ := do
  let (dv, booster) ←
    load_artifacts env.vectorizerExists env.modelExists
      env.joblibLoad env.boosterLoad
  let x ← env.transform dv (cleaned record)
  let proba ← env.predictProba booster x
  return proba

/-- The `st.error` message of the `except` branch of `src/app.py`. -/
def ERROR_MESSAGE : String :=
  "Terjadi error saat memuat model atau melakukan prediksi."

/-- What the right-hand panel renders after the button is pressed: either
the prediction card (probability, label, helper text, progress value) or
the error box (`st.error` message plus `st.code` diagnostic). -/
inductive Display where
  | result (proba : ℚ) (label helper : String) (progress : ℚ)
  | errorBox (message diagnostic : String)
deriving DecidableEq, Repr

/-- The `if run_pred:` branch of `src/app.py`: run the scoring attempt
inside `try`; on success render the card with
`st.progress(min(max(proba, 0.0), 1.0))`; on any exception render
`st.error(...)` and `st.code(str(e))`. -/
def run_pred {DV Booster X : Type}
    (env : ScoringEnv DV Booster X) (record : ApplicantRecord) : Display :=
  match scoringAttempt env record with
  | .ok proba =>
      let (label, helper) := risk_bucket proba
      .result proba label helper (min (max proba 0) 1)
  | .error e => .errorBox ERROR_MESSAGE e

/-- The defaults of the input form of `src/app.py`. -/
def defaultRecord : ApplicantRecord where
  seniority := 5
  home := "owner"
  time := 36
  age := 36
  marital := "married"
  records := "no"
  job := "freelance"
  expenses := 60
  income := .pyFloat 100
  assets := .pyFloat 4000
  debt := .pyFloat 0
  amount := 1100
  price := 1400

end CreditApp

namespace CreditApp

/-- C1: `risk_bucket` assigns LOW for p < 0.33, MEDIUM for 0.33 ≤ p < 0.66
and HIGH for p ≥ 0.66; `risk_bucket 0.33` is MEDIUM, `risk_bucket 0.66` is
HIGH, `risk_bucket 0.329999` is LOW, any negative p yields LOW and any
p > 1 yields HIGH (the Lean function is total, so it never fails). -/
theorem risk_bucket_tiers (p : ℚ) :
    (p < 33/100 → (risk_bucket p).1 = "LOW") ∧
    (33/100 ≤ p → p < 66/100 → (risk_bucket p).1 = "MEDIUM") ∧
    (66/100 ≤ p → (risk_bucket p).1 = "HIGH") ∧
    (risk_bucket (33/100)).1 = "MEDIUM" ∧
    (risk_bucket (66/100)).1 = "HIGH" ∧
    (risk_bucket (329999/1000000)).1 = "LOW" ∧
    (p < 0 → (risk_bucket p).1 = "LOW") ∧
    (1 < p → (risk_bucket p).1 = "HIGH") := by
  refine ⟨?_, ?_, ?_, ?_, ?_, ?_, ?_, ?_⟩
  · intro h; simp [risk_bucket, h]
  · intro h1 h2; simp [risk_bucket, not_lt.mpr h1, h2]
  · intro h
    have h1 : ¬ p < 33/100 := by linarith
    have h2 : ¬ p < 66/100 := by linarith
    simp [risk_bucket, h1, h2]
  · norm_num [risk_bucket]
  · norm_num [risk_bucket]
  · norm_num [risk_bucket]
  · intro h
    have : p < 33/100 := by linarith
    simp [risk_bucket, this]
  · intro h
    have h1 : ¬ p < 33/100 := by linarith
    have h2 : ¬ p < 66/100 := by linarith
    simp [risk_bucket, h1, h2]

/-- C1 witness: the LOW branch at p = 0.1. -/
theorem risk_bucket_tiers_witness : (risk_bucket (1/10)).1 = "LOW" :=
  (risk_bucket_tiers (1/10)).1 (by norm_num)

/-- C6 counterexample: at probability 0.1 the advisory the code returns is
the Indonesian sentence, not the English sentence quoted by the claim. -/
theorem risk_bucket_advisory_counterexample :
    (risk_bucket (1/10)).2 ≠
      "low risk — generally acceptable for consideration." := by
  have h : risk_bucket (1/10) =
      ("LOW", "Risiko rendah — umumnya layak dipertimbangkan.") := by
    norm_num [risk_bucket]
  rw [h]
  decide

/-- C6 (amended): the advisories `risk_bucket` returns are exactly
"Risiko rendah — umumnya layak dipertimbangkan." for p < 0.33,
"Risiko sedang — perlu verifikasi tambahan." for 0.33 ≤ p < 0.66 and
"Risiko tinggi — disarankan evaluasi ketat." for p ≥ 0.66. -/
theorem risk_bucket_advisories (p : ℚ) :
    (p < 33/100 →
      (risk_bucket p).2 = "Risiko rendah — umumnya layak dipertimbangkan.") ∧
    (33/100 ≤ p → p < 66/100 →
      (risk_bucket p).2 = "Risiko sedang — perlu verifikasi tambahan.") ∧
    (66/100 ≤ p →
      (risk_bucket p).2 = "Risiko tinggi — disarankan evaluasi ketat.") := by
  refine ⟨?_, ?_, ?_⟩
  · intro h; simp [risk_bucket, h]
  · intro h1 h2; simp [risk_bucket, not_lt.mpr h1, h2]
  · intro h
    have h1 : ¬ p < 33/100 := by linarith
    have h2 : ¬ p < 66/100 := by linarith
    simp [risk_bucket, h1, h2]

/-- C6 witness: the LOW advisory at p = 0.1. -/
theorem risk_bucket_advisories_witness :
    (risk_bucket (1/10)).2 = "Risiko rendah — umumnya layak dipertimbangkan." :=
  (risk_bucket_advisories (1/10)).1 (by norm_num)

/-- C10: on NaN both comparisons are false, so `risk_bucket` falls through
to the HIGH branch and returns the HIGH advisory; on every finite value
the IEEE-comparison model agrees with `risk_bucket`. -/
theorem risk_bucketF_nan :
    risk_bucketF .nan =
      ("HIGH", "Risiko tinggi — disarankan evaluasi ketat.") ∧
    PFloat.lt .nan (.fin (33/100)) = false ∧
    PFloat.lt .nan (.fin (66/100)) = false ∧
    ∀ p : ℚ, risk_bucketF (.fin p) = risk_bucket p := by
  refine ⟨rfl, rfl, rfl, fun p => ?_⟩
  simp [risk_bucketF, risk_bucket, PFloat.lt]

end CreditApp

namespace CreditApp

/-- Helper: the sanitizer's output is never negative (0 on failure, a
`max` with 0 on success). -/
theorem clamp_non_negative_nonneg (v : PyValue) : 0 ≤ clamp_non_negative v := by
  unfold clamp_non_negative
  cases pyfloat? v with
  | none => exact le_refl 0
  | some q => exact le_max_left 0 q

/-- C2: `clamp_non_negative` is total — it is a Lean function into `ℚ`,
so it returns a float on every `PyValue`, including strings, `None` and
malformed data; when the `float()` conversion fails it returns exactly
0.0, and when it succeeds it returns `max 0 v`. -/
theorem clamp_non_negative_total (v : PyValue) :
    (∃ q : ℚ, clamp_non_negative v = q) ∧
    (pyfloat? v = none → clamp_non_negative v = 0) ∧
    (∀ q : ℚ, pyfloat? v = some q → clamp_non_negative v = max 0 q) := by
  refine ⟨⟨clamp_non_negative v, rfl⟩, ?_, ?_⟩
  · intro h; simp [clamp_non_negative, h]
  · intro q h; simp [clamp_non_negative, h]

/-- C2 witness: the non-numeric string "abc" is coerced to 0.0. -/
theorem clamp_non_negative_total_witness :
    clamp_non_negative (.pyStr "abc") = 0 :=
  (clamp_non_negative_total (.pyStr "abc")).2.1 rfl

/-- C3: `clamp_non_negative` is ≥ 0 on every input; on a successful
conversion it equals `max 0 v`; `clamp_non_negative (-5.2) = 0`,
`clamp_non_negative "abc" = 0`, `clamp_non_negative 12.5 = 12.5`. -/
theorem clamp_non_negative_spec (v : PyValue) :
    0 ≤ clamp_non_negative v ∧
    (∀ q : ℚ, pyfloat? v = some q → clamp_non_negative v = max 0 q) ∧
    clamp_non_negative (.pyFloat (-26/5)) = 0 ∧
    clamp_non_negative (.pyStr "abc") = 0 ∧
    clamp_non_negative (.pyFloat (25/2)) = 25/2 := by
  refine ⟨clamp_non_negative_nonneg v, ?_, ?_, ?_, ?_⟩
  · intro q h; simp [clamp_non_negative, h]
  · norm_num [clamp_non_negative, pyfloat?]
  · rfl
  · norm_num [clamp_non_negative, pyfloat?]

/-- C3 witness: the success case at 12.5, where the clamp is `max 0 12.5`. -/
theorem clamp_non_negative_spec_witness :
    clamp_non_negative (.pyFloat (25/2)) = max 0 (25/2 : ℚ) :=
  (clamp_non_negative_spec (.pyFloat (25/2))).2.1 (25/2) rfl

/-- C8: `clamp_non_negative` is idempotent — feeding its (float) result
back in returns the same value. -/
theorem clamp_non_negative_idem (x : PyValue) :
    clamp_non_negative (.pyFloat (clamp_non_negative x)) =
      clamp_non_negative x := by
  have h : clamp_non_negative (.pyFloat (clamp_non_negative x)) =
      max 0 (clamp_non_negative x) := rfl
  rw [h, max_eq_right (clamp_non_negative_nonneg x)]

/-- C5: `cleaned` applies `clamp_non_negative` to exactly `income`,
`assets` and `debt` (so those three fields of the record handed to the
scoring call are non-negative floats) and leaves the other ten fields
unchanged. -/
theorem cleaned_spec (r : ApplicantRecord) :
    (cleaned r).income = .pyFloat (clamp_non_negative r.income) ∧
    (cleaned r).assets = .pyFloat (clamp_non_negative r.assets) ∧
    (cleaned r).debt = .pyFloat (clamp_non_negative r.debt) ∧
    0 ≤ clamp_non_negative r.income ∧
    0 ≤ clamp_non_negative r.assets ∧
    0 ≤ clamp_non_negative r.debt ∧
    (cleaned r).seniority = r.seniority ∧
    (cleaned r).home = r.home ∧
    (cleaned r).time = r.time ∧
    (cleaned r).age = r.age ∧
    (cleaned r).marital = r.marital ∧
    (cleaned r).records = r.records ∧
    (cleaned r).job = r.job ∧
    (cleaned r).expenses = r.expenses ∧
    (cleaned r).amount = r.amount ∧
    (cleaned r).price = r.price :=
  ⟨rfl, rfl, rfl, clamp_non_negative_nonneg _, clamp_non_negative_nonneg _,
   clamp_non_negative_nonneg _, rfl, rfl, rfl, rfl, rfl, rfl, rfl, rfl, rfl, rfl⟩

end CreditApp

namespace CreditApp

/-- A collaborator environment in which the vectorizer file is absent. -/
def failEnv : ScoringEnv Unit Unit Unit where
  vectorizerExists := false
  modelExists := false
  joblibLoad := .ok ()
  boosterLoad := .ok ()
  transform := fun _ _ => .ok ()
  predictProba := fun _ _ => .ok 0

/-- A collaborator environment in which every step succeeds and the model
returns probability 0.5. -/
def okEnv : ScoringEnv Unit Unit Unit where
  vectorizerExists := true
  modelExists := true
  joblibLoad := .ok ()
  boosterLoad := .ok ()
  transform := fun _ _ => .ok ()
  predictProba := fun _ _ => .ok (1/2)

/-- C4: whenever the scoring path (artifact loading, transform, predict)
fails with diagnostic `e`, `run_pred` returns the error box carrying the
fixed user-visible message and `e`; and for every environment and record
`run_pred` returns a `Display` (result card or error box), never a crash. -/
theorem run_pred_catches {DV Booster X : Type}
    (env : ScoringEnv DV Booster X) (record : ApplicantRecord) (e : String)
    (h : scoringAttempt env record = .error e) :
    run_pred env record = .errorBox ERROR_MESSAGE e ∧
    ∀ (env2 : ScoringEnv DV Booster X) (r2 : ApplicantRecord),
      (∃ p l hp v, run_pred env2 r2 = .result p l hp v) ∨
      (∃ msg d, run_pred env2 r2 = .errorBox msg d) := by
  constructor
  · simp [run_pred, h]
  · intro env2 r2
    unfold run_pred
    rcases hS : scoringAttempt env2 r2 with e2 | proba
    · right
      exact ⟨ERROR_MESSAGE, e2, rfl⟩
    · left
      exact ⟨proba, (risk_bucket proba).1, (risk_bucket proba).2,
        min (max proba 0) 1, rfl⟩

/-- C4 witness: with the vectorizer file absent, the error box carries the
fixed message and the diagnostic naming the missing file. -/
theorem run_pred_catches_witness :
    run_pred failEnv defaultRecord =
      .errorBox ERROR_MESSAGE ("File tidak ditemukan: " ++ VECTORIZER_PATH) :=
  (run_pred_catches failEnv defaultRecord
    ("File tidak ditemukan: " ++ VECTORIZER_PATH) rfl).1

/-- C7: with the vectorizer file absent, `load_artifacts` fails with the
message naming `VECTORIZER_PATH`; with it present and the model file
absent, with the message naming `MODEL_PATH`; in both cases `run_pred`
surfaces that message in the error box instead of crashing. -/
theorem load_artifacts_missing {DV Booster X : Type}
    (env : ScoringEnv DV Booster X) (record : ApplicantRecord) :
    (env.vectorizerExists = false →
      load_artifacts env.vectorizerExists env.modelExists
          env.joblibLoad env.boosterLoad
        = .error ("File tidak ditemukan: " ++ VECTORIZER_PATH) ∧
      run_pred env record =
        .errorBox ERROR_MESSAGE ("File tidak ditemukan: " ++ VECTORIZER_PATH)) ∧
    (env.vectorizerExists = true → env.modelExists = false →
      load_artifacts env.vectorizerExists env.modelExists
          env.joblibLoad env.boosterLoad
        = .error ("File tidak ditemukan: " ++ MODEL_PATH) ∧
      run_pred env record =
        .errorBox ERROR_MESSAGE ("File tidak ditemukan: " ++ MODEL_PATH)) := by
  constructor
  · intro hv
    have hl : load_artifacts env.vectorizerExists env.modelExists
        env.joblibLoad env.boosterLoad
        = .error ("File tidak ditemukan: " ++ VECTORIZER_PATH) := by
      simp [load_artifacts, hv]
    have hs : scoringAttempt env record
        = .error ("File tidak ditemukan: " ++ VECTORIZER_PATH) := by
      unfold scoringAttempt
      rw [hl]
      rfl
    exact ⟨hl, by simp [run_pred, hs]⟩
  · intro hv hm
    have hl : load_artifacts env.vectorizerExists env.modelExists
        env.joblibLoad env.boosterLoad
        = .error ("File tidak ditemukan: " ++ MODEL_PATH) := by
      simp [load_artifacts, hv, hm]
    have hs : scoringAttempt env record
        = .error ("File tidak ditemukan: " ++ MODEL_PATH) := by
      unfold scoringAttempt
      rw [hl]
      rfl
    exact ⟨hl, by simp [run_pred, hs]⟩

/-- C7 witness: the vectorizer-missing case of `failEnv`. -/
theorem load_artifacts_missing_witness :
    load_artifacts failEnv.vectorizerExists failEnv.modelExists
        failEnv.joblibLoad failEnv.boosterLoad
      = .error ("File tidak ditemukan: " ++ VECTORIZER_PATH) ∧
    run_pred failEnv defaultRecord =
      .errorBox ERROR_MESSAGE ("File tidak ditemukan: " ++ VECTORIZER_PATH) :=
  (load_artifacts_missing failEnv defaultRecord).1 rfl

/-- C9: whenever `run_pred` renders the result card, the value driving the
progress indicator is `min (max proba 0) 1`, which lies in `[0, 1]`. -/
theorem progress_bounded {DV Booster X : Type}
    (env : ScoringEnv DV Booster X) (record : ApplicantRecord)
    (p : ℚ) (l hp : String) (v : ℚ)
    (h : run_pred env record = .result p l hp v) :
    v = min (max p 0) 1 ∧ 0 ≤ v ∧ v ≤ 1 := by
  have hv : v = min (max p 0) 1 := by
    unfold run_pred at h
    rcases hS : scoringAttempt env record with e | proba
    · rw [hS] at h; cases h
    · rw [hS] at h
      have h2 : Display.result proba (risk_bucket proba).1 (risk_bucket proba).2
          (min (max proba 0) 1) = Display.result p l hp v := h
      simp only [Display.result.injEq] at h2
      obtain ⟨hp1, -, -, hv1⟩ := h2
      rw [← hv1, hp1]
  refine ⟨hv, ?_, ?_⟩
  · rw [hv]; exact le_min (le_max_right p 0) zero_le_one
  · rw [hv]; exact min_le_right _ _

/-- C9 witness: the all-success environment at probability 0.5. -/
theorem progress_bounded_witness :
    (1/2 : ℚ) = min (max (1/2 : ℚ) 0) 1 ∧
    (0 : ℚ) ≤ 1/2 ∧ (1/2 : ℚ) ≤ 1 := by
  have hS : scoringAttempt okEnv defaultRecord = .ok (1/2 : ℚ) := rfl
  have hrb : risk_bucket (1/2 : ℚ)
      = ("MEDIUM", "Risiko sedang — perlu verifikasi tambahan.") := by
    norm_num [risk_bucket]
  have hmin : min (max (1/2 : ℚ) 0) 1 = 1/2 := by norm_num
  have hrun : run_pred okEnv defaultRecord =
      Display.result (1/2) (risk_bucket (1/2 : ℚ)).1 (risk_bucket (1/2 : ℚ)).2
        (min (max (1/2 : ℚ) 0) 1) := rfl
  have h : run_pred okEnv defaultRecord =
      .result (1/2) "MEDIUM" "Risiko sedang — perlu verifikasi tambahan." (1/2) := by
    rw [hrun, hrb, hmin]
  exact progress_bounded okEnv defaultRecord (1/2) "MEDIUM"
    "Risiko sedang — perlu verifikasi tambahan." (1/2) h

end CreditApp
